/-
Verification of the dynamic-linking-metadata core of pyelftools
(vadmium fork): `elftools/elf/dynamic.py` together with the observable
behavior pinned down by `test/test_dynamic.py` and `test/test_elffile.py`.

The embedding below translates the Python code into Lean:
  * `Entry` models one decoded `Elf_Dyn` record (pyelftools represents
    tags as strings such as "DT_NULL"); `d_val` and `d_ptr` are the two
    interpretations of the record's value field.
  * `StringTable` and `ELFFile.map` model external collaborators whose
    code is not part of this core; they are modelled from the spec
    (see their doc comments).
  * `DynamicTag` / `mkDynamicTag` model `DynamicTag.__init__`.
  * `scanEntries` models the sentinel-terminated decode loop of
    `Dynamic._load_entries`; the unbounded Python loop is given explicit
    fuel, `none` standing for a scan that has not terminated within it.
  * `DynState` models the mutable instance state (`_entries`,
    `_stringtable`) plus a load counter; `runLoad` models
    `_load_entries` including the partial mutation that a bootstrap
    failure leaves behind (entries cached, string table still absent).
  * `Dynamic.num_tags`, `Dynamic.get_tag`, `Dynamic.iter_tags` model the
    three public operations (a generator is modelled as the eager list
    of the elements it would yield).
Python exceptions are modelled by the `PyError` enumeration and
`Except`; `Option` at the outermost layer models nontermination of the
sentinel scan.
-/
import Mathlib

set_option autoImplicit false

/-- One decoded `Elf_Dyn` record: a tag (pyelftools decodes it to a
string name such as "DT_NULL") and the value field under its two
interpretations (`d_val` as integer / string-table offset, `d_ptr` as
virtual address); in the binary format both come from the same storage. -/
structure Entry where
  d_tag : String
  d_val : Nat
  d_ptr : Nat
deriving DecidableEq, Repr

/-- The Python exception classes that the modelled code can raise. -/
inductive PyError where
  /-- Python `ELFError` (e.g. building a `DynamicTag` without a string table). -/
  | elfError
  /-- Python `LookupError` from `ELFFile.map` when an address is not mapped. -/
  | lookupError
  /-- Python `KeyError` from indexing the tag-type map after its default
  factory has been disabled. -/
  | keyError
  /-- Python `ValueError` from unpacking a tuple of the wrong arity. -/
  | valueError
  /-- Python `IndexError` from indexing the entry list out of range. -/
  | indexError
deriving DecidableEq, Repr

deriving instance DecidableEq for Except

/-- Modelled from the spec: `elftools.elf.strings.StringTable` is not in
the sources of this core.  Per the spec it is constructed from
`(stream, fileOffset, byteLength-or-unspecified)` and `get_string`
maps a byte offset within the table to a NUL-terminated byte string;
an omitted size means an unbounded (greedy) extent.  The stream is a
byte list, `position` the file offset of the table's base. -/
structure StringTable where
  stream : List Nat
  position : Nat
  size : Option Nat
deriving DecidableEq, Repr

/-- Modelled from the spec: `get_string(byteOffset) -> bytes` returns
the NUL-terminated byte string found at that offset within the table's
extent (bounded by `size` when given, else by the stream's end). -/
def StringTable.get_string (st : StringTable) (off : Nat) : List Nat :=
  let extent :=
    match st.size with
    | some sz => (st.stream.drop st.position).take sz
    | none => st.stream.drop st.position
  (extent.drop off).takeWhile (fun b => b ≠ 0)

/-- One loadable region: the `(p_vaddr, p_filesz, p_offset)` triple the
container's segment enumeration supplies to the address mapper. -/
structure Region where
  p_vaddr : Nat
  p_filesz : Nat
  p_offset : Nat
deriving DecidableEq, Repr

/-- Modelled from the spec: the containment predicate of the address
mapper.  A region matches when `p_vaddr <= address` and the queried
bytes fit in the region; per the spec's boundary note (and the
assertions of `test/test_elffile.py`), a zero-length query must land
strictly before the region's end while a nonzero-length query may end
exactly at it — `max length 1` expresses both at once. -/
def regionMatch (r : Region) (address length : Nat) : Bool :=
  decide (r.p_vaddr ≤ address) &&
    decide (address + max length 1 ≤ r.p_vaddr + r.p_filesz)

/-- Modelled from the spec: `ELFFile.map(address, length=0)` — the
AddressMapper — is not in the sources of this core.  It scans the
supplied regions in order, returns
`region.p_offset + (address - region.p_vaddr)` for the first matching
region, and raises `LookupError` when none matches. -/
def ELFFile.map (regions : List Region) (address : Nat) (length : Nat) :
    Except PyError Nat :=
  match regions.find? (fun r => regionMatch r address length) with
  | some r => .ok (r.p_offset + (address - r.p_vaddr))
  | none => .error .lookupError

/-- Models `DynamicTag._HANDLED_TAGS`: the fixed string-bearing tag set. -/
def HANDLED_TAGS : List String :=
  ["DT_NEEDED", "DT_RPATH", "DT_RUNPATH", "DT_SONAME", "DT_SUNW_FILTER"]

/-- The view one `DynamicTag(entry, stringtable)` builds: the raw entry
plus, for handled tags, the synthesized attribute (its name is the tag
with the `DT_` prefix stripped and lower-cased, its value the string
fetched from the string table at the entry's value-as-offset). -/
structure DynamicTag where
  entry : Entry
  attrName : Option String
  attrVal : Option (List Nat)
deriving DecidableEq, Repr

/-- Python's `str.lower()` on the ASCII tag names: char-wise
lower-casing of the string's characters. -/
def lowerStr (s : String) : String := ⟨s.data.map Char.toLower⟩

/-- The body of `DynamicTag.__init__` once the string table is known to
be present: build the view, resolving the string eagerly for tags in
`_HANDLED_TAGS`; the attribute name is `entry.d_tag[3:].lower()`. -/
def mkTagWith (st : StringTable) (e : Entry) : DynamicTag :=
  if e.d_tag ∈ HANDLED_TAGS then
    { entry := e
      attrName := some (lowerStr (e.d_tag.drop 3))
      attrVal := some (st.get_string e.d_val) }
  else
    { entry := e, attrName := none, attrVal := none }

/-- Models `DynamicTag.__init__(entry, stringtable)`: raises `ELFError` when
`stringtable is None`, otherwise constructs the view. -/
def mkDynamicTag (e : Entry) (stringtable : Option StringTable) :
    Except PyError DynamicTag :=
  match stringtable with
  | none => .error .elfError
  | some st => .ok (mkTagWith st e)

/-- The inputs a `Dynamic` instance closes over: the decoder applied to
the shared stream (`struct_parse(Elf_Dyn, stream, stream_pos=·)`,
external, here an abstract total function on byte offsets), the table's
file `position`, `Elf_Dyn.sizeof()`, the container's loadable regions
(consumed by `ELFFile.map` during bootstrap) and the raw byte stream
(consumed by the bootstrapped `StringTable`). -/
structure DynConfig where
  decode : Nat → Entry
  offset : Nat
  tagsize : Nat
  regions : List Region
  stream : List Nat

/-- The record the scan decodes at index `n`: the decoder applied at
`offset + n * tagsize`, exactly the loop's offset arithmetic. -/
def DynConfig.entryAt (cfg : DynConfig) (n : Nat) : Entry :=
  cfg.decode (cfg.offset + n * cfg.tagsize)

/-- The sentinel-terminated decode loop of `Dynamic._load_entries`:
starting at record index `n` with the records accumulated so far,
decode one record per step, append it, and stop immediately after
appending a record whose tag is "DT_NULL".  The Python loop is
unbounded (`itertools.count()`); `fuel` bounds the model, `none`
meaning the sentinel was not reached within it. -/
def scanEntries (cfg : DynConfig) :
    Nat → Nat → List Entry → Option (List Entry)
  | 0, _, _ => none
  | fuel + 1, n, acc =>
    if (cfg.entryAt n).d_tag = "DT_NULL" then
      some (acc ++ [cfg.entryAt n])
    else
      scanEntries cfg fuel (n + 1) (acc ++ [cfg.entryAt n])

/-- The finished `_entry_type_map`: the scan appends each entry to the
list keyed by its tag, then disables the defaultdict's default factory,
so afterwards a key is present exactly when some entry carries that tag
and its group is the in-order sublist of entries with that tag. -/
def entryTypeMap (entries : List Entry) (t : String) : Option (List Entry) :=
  let g := entries.filter (fun e => e.d_tag = t)
  if g.isEmpty then none else some g

/-- The `DT_STRSZ` step of the bootstrap: `.get` returns `None` for an
absent group (no error), a present group is unpacked as a 1-tuple
(`ValueError` on any other arity) and its entry's `d_val` taken. -/
def getStrsz (entries : List Entry) : Except PyError (Option Nat) :=
  match entryTypeMap entries "DT_STRSZ" with
  | none => .ok none
  | some [s] => .ok (some s.d_val)
  | some _ => .error .valueError

/-- The string-table bootstrap of `_load_entries` (runs only when no
string table was supplied): index the type map at "DT_STRTAB"
(`KeyError` when absent, the default factory being disabled), unpack
the group as a 1-tuple (`ValueError` on any other arity), resolve the
optional `DT_STRSZ` size, translate the pointer's address through
`ELFFile.map` (the size, when present, is also the access length of the
query), and construct the `StringTable` at the mapped offset with that
size. -/
def bootstrapStringtable (cfg : DynConfig) (entries : List Entry) :
    Except PyError StringTable :=
  match entryTypeMap entries "DT_STRTAB" with
  | none => .error .keyError
  | some [strtab] =>
    match getStrsz entries with
    | .error err => .error err
    | .ok strsz =>
      match ELFFile.map cfg.regions strtab.d_ptr (strsz.getD 0) with
      | .error err => .error err
      | .ok pos =>
        .ok { stream := cfg.stream, position := pos, size := strsz }
  | some _ => .error .valueError

/-- The mutable state of one `Dynamic` instance: `_entries` (`none`
before the first load), `_stringtable`, and a counter of how many times
the decode scan has executed (the spec's observable load counter). -/
structure DynState where
  entries : Option (List Entry)
  stringtable : Option StringTable
  loadCount : Nat
deriving DecidableEq, Repr

/-- The state of a freshly constructed instance: nothing loaded, the
externally supplied string table (or `none`), no scan performed. -/
def initState (stringtable : Option StringTable) : DynState :=
  { entries := none, stringtable := stringtable, loadCount := 0 }

/-- Models `Dynamic._load_entries`: return at once when entries are already
loaded; otherwise run the sentinel scan (caching its result and
counting the execution), then — only when no string table is present —
bootstrap one.  A bootstrap failure raises but leaves the scanned
entries cached, exactly as the Python method mutates `self._entries`
before the failure point.  `none` models a scan that never finds the
sentinel (the unbounded-loop case). -/
def runLoad (cfg : DynConfig) (fuel : Nat) (s : DynState) :
    Option (DynState × Except PyError Unit) :=
  match s.entries with
  | some _ => some (s, .ok ())
  | none =>
    match scanEntries cfg fuel 0 [] with
    | none => none
    | some es =>
      let s1 : DynState :=
        { entries := some es, stringtable := s.stringtable
          loadCount := s.loadCount + 1 }
      match s1.stringtable with
      | some _ => some (s1, .ok ())
      | none =>
        match bootstrapStringtable cfg es with
        | .ok st => some ({ s1 with stringtable := some st }, .ok ())
        | .error e => some (s1, .error e)

/-- The post-load body of `num_tags`: `len(self._entries)`. -/
def numTagsResult (s : DynState) : Except PyError Nat :=
  .ok (s.entries.getD []).length

/-- The post-load body of `get_tag(n)`:
`DynamicTag(self._entries[n], self._stringtable)` — `IndexError` out of
range, an `ELFError` from the view when the string table is absent. -/
def getTagResult (n : Nat) (s : DynState) : Except PyError DynamicTag :=
  let es := s.entries.getD []
  if h : n < es.length then
    mkDynamicTag (es.get ⟨n, h⟩) s.stringtable
  else
    .error .indexError

/-- The post-load body of `iter_tags(type)`: the full entry list when
no type is given, else the type map's group (`()` when absent), each
entry wrapped in a `DynamicTag` view.  The generator is modelled as
the eager list of the elements it yields; a raising element aborts. -/
def iterTagsResult (type : Option String) (s : DynState) :
    Except PyError (List DynamicTag) :=
  let entries :=
    match type with
    | none => s.entries.getD []
    | some t => (entryTypeMap (s.entries.getD []) t).getD []
  entries.mapM (fun e => mkDynamicTag e s.stringtable)

/-- Models `Dynamic.num_tags()`: load, then the length of the entry list. -/
def Dynamic.num_tags (cfg : DynConfig) (fuel : Nat) (s : DynState) :
    Option (DynState × Except PyError Nat) :=
  match runLoad cfg fuel s with
  | none => none
  | some (s1, .error e) => some (s1, .error e)
  | some (s1, .ok ()) => some (s1, numTagsResult s1)

/-- Models `Dynamic.get_tag(n)`: load, then view the n-th entry. -/
def Dynamic.get_tag (cfg : DynConfig) (fuel : Nat) (n : Nat)
    (s : DynState) : Option (DynState × Except PyError DynamicTag) :=
  match runLoad cfg fuel s with
  | none => none
  | some (s1, .error e) => some (s1, .error e)
  | some (s1, .ok ()) => some (s1, getTagResult n s1)

/-- Models `Dynamic.iter_tags(type=None)`: load, then yield the views. -/
def Dynamic.iter_tags (cfg : DynConfig) (fuel : Nat) (type : Option String)
    (s : DynState) : Option (DynState × Except PyError (List DynamicTag)) :=
  match runLoad cfg fuel s with
  | none => none
  | some (s1, .error e) => some (s1, .error e)
  | some (s1, .ok ()) => some (s1, iterTagsResult type s1)

/-- A call to one of the three public table operations. -/
inductive DynOp where
  | numTags
  | getTag (n : Nat)
  | iterTags (type : Option String)
deriving DecidableEq, Repr

/-- The value one operation call returns. -/
inductive DynResult where
  | nat (n : Nat)
  | tag (t : DynamicTag)
  | tags (l : List DynamicTag)
deriving DecidableEq, Repr

/-- Dispatch one operation call against the instance state. -/
def runOp (cfg : DynConfig) (fuel : Nat) (op : DynOp) (s : DynState) :
    Option (DynState × Except PyError DynResult) :=
  match op with
  | .numTags =>
    (Dynamic.num_tags cfg fuel s).map (fun p => (p.1, p.2.map .nat))
  | .getTag n =>
    (Dynamic.get_tag cfg fuel n s).map (fun p => (p.1, p.2.map .tag))
  | .iterTags t =>
    (Dynamic.iter_tags cfg fuel t s).map (fun p => (p.1, p.2.map .tags))

/-- The pure part of one operation call on the already-loaded state. -/
def opResult (op : DynOp) (s : DynState) : Except PyError DynResult :=
  match op with
  | .numTags => (numTagsResult s).map .nat
  | .getTag n => (getTagResult n s).map .tag
  | .iterTags t => (iterTagsResult t s).map .tags

/-! ### Sanity checks against `test/test_elffile.py` (`TestMap.runTest`)

The mock container there supplies the regions
`[(0x10200, 0x200, 0x100), (0x10100, 0x100, 0x400)]`; every assertion
of the test holds of the modelled `ELFFile.map`. -/

/-- The region list of `TestMap.runTest`, in `iter_segments` order. -/
def testMapRegions : List Region :=
  [⟨0x10200, 0x200, 0x100⟩, ⟨0x10100, 0x100, 0x400⟩]

theorem testMap_assertions :
    ELFFile.map testMapRegions 0x10100 0 = .ok 0x400 ∧
    ELFFile.map testMapRegions 0x10120 0 = .ok 0x420 ∧
    ELFFile.map testMapRegions 0x101FF 0 = .ok 0x4FF ∧
    ELFFile.map testMapRegions 0x10200 0 = .ok 0x100 ∧
    ELFFile.map testMapRegions 0x100FF 0 = .error .lookupError ∧
    ELFFile.map testMapRegions 0x10400 0 = .error .lookupError ∧
    ELFFile.map testMapRegions 0x10100 0x100 = .ok 0x400 ∧
    ELFFile.map testMapRegions 0x10100 4 = .ok 0x400 ∧
    ELFFile.map testMapRegions 0x10120 4 = .ok 0x420 ∧
    ELFFile.map testMapRegions 0x101FC 4 = .ok 0x4FC ∧
    ELFFile.map testMapRegions 0x10200 4 = .ok 0x100 ∧
    ELFFile.map testMapRegions 0x10100 0x200 = .error .lookupError ∧
    ELFFile.map testMapRegions 0x10000 0x800 = .error .lookupError ∧
    ELFFile.map testMapRegions 0x100FC 4 = .error .lookupError ∧
    ELFFile.map testMapRegions 0x100FE 4 = .error .lookupError ∧
    ELFFile.map testMapRegions 0x101FE 4 = .error .lookupError ∧
    ELFFile.map testMapRegions 0x103FE 4 = .error .lookupError ∧
    ELFFile.map testMapRegions 0x10400 4 = .error .lookupError := by
  decide

/-! ### The sentinel-terminated scan -/

/-- When the first sentinel of the record stream sits at index `j`, the
scan, started at any index `n ≤ j` with any accumulator and enough
fuel, terminates and returns the accumulator extended with the records
at indices `n, n+1, …, j` — it decodes sequentially and stops right
after appending the sentinel record. -/
theorem scanEntries_spec (cfg : DynConfig) (j : Nat)
    (hsent : (cfg.entryAt j).d_tag = "DT_NULL")
    (hfirst : ∀ i, i < j → (cfg.entryAt i).d_tag ≠ "DT_NULL") :
    ∀ fuel n acc, n ≤ j → j + 1 - n ≤ fuel →
      scanEntries cfg fuel n acc =
        some (acc ++ (List.range' n (j + 1 - n)).map cfg.entryAt) := by
  intro fuel
  induction fuel with
  | zero =>
    intro n acc hn hf
    omega
  | succ fuel ih =>
    intro n acc hn hf
    rcases Nat.eq_or_lt_of_le hn with hej | hlt
    · subst hej
      have hone : n + 1 - n = 1 := by omega
      rw [scanEntries, if_pos hsent, hone]
      simp [List.range'_succ]
    · have hne := hfirst n hlt
      rw [scanEntries, if_neg hne, ih (n + 1) (acc ++ [cfg.entryAt n]) hlt (by omega)]
      have hsplit : j + 1 - n = (j + 1 - (n + 1)) + 1 := by omega
      rw [hsplit, List.range'_succ]
      simp

/-- The scan started from index 0 with an empty accumulator: the full
entry list is the first `j + 1` records of the stream. -/
theorem scanEntries_full (cfg : DynConfig) (j fuel : Nat)
    (hsent : (cfg.entryAt j).d_tag = "DT_NULL")
    (hfirst : ∀ i, i < j → (cfg.entryAt i).d_tag ≠ "DT_NULL")
    (hfuel : j + 1 ≤ fuel) :
    scanEntries cfg fuel 0 [] =
      some ((List.range (j + 1)).map cfg.entryAt) := by
  rw [List.range_eq_range']
  have h := scanEntries_spec cfg j hsent hfirst fuel 0 [] (Nat.zero_le j)
    (by omega)
  simpa using h

/-! ### Loading lemmas -/

/-- The view builder `mkTagWith` never alters the raw entry it wraps. -/
theorem mkTagWith_entry (st : StringTable) (e : Entry) :
    (mkTagWith st e).entry = e := by
  unfold mkTagWith
  split <;> rfl

/-- Running `_load_entries` on an instance whose entries are already cached
returns at once, mutating nothing. -/
theorem runLoad_loaded (cfg : DynConfig) (fuel : Nat) (s : DynState)
    (h : s.entries.isSome) : runLoad cfg fuel s = some (s, .ok ()) := by
  unfold runLoad
  rcases hs : s.entries with _ | es
  · rw [hs] at h
    simp at h
  · rfl

/-- A fresh load with an externally supplied string table: the scan
result is cached, the scan counter ticks once, the supplied table is
kept and no bootstrap runs. -/
theorem runLoad_supplied (cfg : DynConfig) (fuel : Nat) (st : StringTable)
    (c : Nat) (es : List Entry)
    (hscan : scanEntries cfg fuel 0 [] = some es) :
    runLoad cfg fuel { entries := none, stringtable := some st, loadCount := c } =
      some ({ entries := some es, stringtable := some st, loadCount := c + 1 },
        .ok ()) := by
  unfold runLoad
  rw [hscan]

/-- A fresh load with no supplied string table: the scan result is
cached, the scan counter ticks once, and the outcome is that of the
bootstrap — on success the bootstrapped table is installed, on failure
the error propagates while the entries stay cached. -/
theorem runLoad_bootstrap (cfg : DynConfig) (fuel : Nat) (c : Nat)
    (es : List Entry) (hscan : scanEntries cfg fuel 0 [] = some es) :
    runLoad cfg fuel { entries := none, stringtable := none, loadCount := c } =
      match bootstrapStringtable cfg es with
      | .ok st =>
        some ({ entries := some es, stringtable := some st,
                loadCount := c + 1 }, .ok ())
      | .error e =>
        some ({ entries := some es, stringtable := none,
                loadCount := c + 1 }, .error e) := by
  unfold runLoad
  rw [hscan]

/-- Every operation is the load step followed by its pure body. -/
theorem runOp_eq (cfg : DynConfig) (fuel : Nat) (op : DynOp) (s : DynState) :
    runOp cfg fuel op s =
      match runLoad cfg fuel s with
      | none => none
      | some (s1, .error e) => some (s1, .error e)
      | some (s1, .ok ()) => some (s1, opResult op s1) := by
  rcases hr : runLoad cfg fuel s with _ | ⟨s1, r⟩
  · cases op <;>
      simp [runOp, Dynamic.num_tags, Dynamic.get_tag, Dynamic.iter_tags, hr]
  · rcases r with e | u
    · cases op <;>
        simp [runOp, Dynamic.num_tags, Dynamic.get_tag, Dynamic.iter_tags,
          hr, Except.map]
    · cases u
      cases op <;>
        simp [runOp, Dynamic.num_tags, Dynamic.get_tag, Dynamic.iter_tags,
          hr, opResult]

/-! ### Claim C1 -/

/-- C1: for every entry stream whose k-th record is the first one with
tag DT_NULL, the lazy scan decodes records sequentially from the
table's file position and stops immediately after appending that
sentinel record; thereafter `num_tags()` returns k (the sequence
length including the sentinel) and `get_tag(num_tags()-1)` is a view
over an entry whose tag is DT_NULL. -/
theorem dynamic_scan_C1 (cfg : DynConfig) (st : StringTable) (k fuel : Nat)
    (hk : 1 ≤ k)
    (hsent : (cfg.entryAt (k - 1)).d_tag = "DT_NULL")
    (hfirst : ∀ i, i < k - 1 → (cfg.entryAt i).d_tag ≠ "DT_NULL")
    (hfuel : k ≤ fuel) :
    scanEntries cfg fuel 0 [] = some ((List.range k).map cfg.entryAt) ∧
    Dynamic.num_tags cfg fuel (initState (some st)) =
      some ({ entries := some ((List.range k).map cfg.entryAt),
              stringtable := some st, loadCount := 1 }, .ok k) ∧
    ∃ dt : DynamicTag,
      Dynamic.get_tag cfg fuel (k - 1)
          { entries := some ((List.range k).map cfg.entryAt),
            stringtable := some st, loadCount := 1 } =
        some ({ entries := some ((List.range k).map cfg.entryAt),
                stringtable := some st, loadCount := 1 }, .ok dt) ∧
      dt.entry.d_tag = "DT_NULL" := by
  have hk1 : k - 1 + 1 = k := by omega
  have hscan : scanEntries cfg fuel 0 [] =
      some ((List.range k).map cfg.entryAt) := by
    have h := scanEntries_full cfg (k - 1) fuel hsent hfirst (by omega)
    rwa [hk1] at h
  have hlen : ((List.range k).map cfg.entryAt).length = k := by simp
  refine ⟨hscan, ?_, ?_⟩
  · unfold Dynamic.num_tags
    rw [show initState (some st) =
        { entries := none, stringtable := some st, loadCount := 0 } from rfl,
      runLoad_supplied cfg fuel st 0 _ hscan]
    simp [numTagsResult, hlen]
  · refine ⟨mkTagWith st (cfg.entryAt (k - 1)), ?_, ?_⟩
    · unfold Dynamic.get_tag
      rw [runLoad_loaded cfg fuel _ (by simp)]
      unfold getTagResult
      simp only [Option.getD_some]
      split
      · rename_i h
        have hget : ((List.range k).map cfg.entryAt).get ⟨k - 1, h⟩ =
            cfg.entryAt (k - 1) := by
          simp [List.get_eq_getElem, List.getElem_map, List.getElem_range]
        rw [hget]
        simp [mkDynamicTag]
      · rename_i h
        exfalso
        rw [hlen] at h
        omega
    · rw [mkTagWith_entry]
      exact hsent

/-- Concrete two-record stream exercising `dynamic_scan_C1`: one
DT_SONAME record followed by the DT_NULL sentinel. -/
def w1cfg : DynConfig :=
  { decode := fun off =>
      ([⟨"DT_SONAME", 1, 1⟩, ⟨"DT_NULL", 0, 0⟩].getD off ⟨"DT_HASH", 0, 0⟩)
    offset := 0
    tagsize := 1
    regions := []
    stream := [0, 65, 0] }

/-- A supplied string table for the concrete instances. -/
def w1st : StringTable := { stream := [65, 0], position := 0, size := none }

theorem dynamic_scan_C1_witness :
    1 ≤ 2 ∧ (w1cfg.entryAt (2 - 1)).d_tag = "DT_NULL" ∧
    (∀ i, i < 2 - 1 → (w1cfg.entryAt i).d_tag ≠ "DT_NULL") ∧ 2 ≤ 5 ∧
    Dynamic.num_tags w1cfg 5 (initState (some w1st)) =
      some ({ entries := some ((List.range 2).map w1cfg.entryAt),
              stringtable := some w1st, loadCount := 1 }, .ok 2) :=
  ⟨by decide, by decide, by decide, by decide,
   (dynamic_scan_C1 w1cfg w1st 2 5 (by decide) (by decide) (by decide)
     (by decide)).2.1⟩

/-! ### Claim C6 -/

/-- Characterization of the first load on a fresh instance: the scan
ran (once), its result is cached, and the call either completed with a
string table installed or raised with the string table still absent. -/
theorem runLoad_init (cfg : DynConfig) (fuel : Nat)
    (stOpt : Option StringTable) (s1 : DynState) (r : Except PyError Unit)
    (h : runLoad cfg fuel (initState stOpt) = some (s1, r)) :
    ∃ es, scanEntries cfg fuel 0 [] = some es ∧
      s1.entries = some es ∧ s1.loadCount = 1 ∧
      ((r = .ok () ∧ s1.stringtable.isSome) ∨
       (∃ e, r = .error e ∧ s1.stringtable = none)) := by
  unfold runLoad initState at h
  rcases hscan : scanEntries cfg fuel 0 [] with _ | es
  · rw [hscan] at h
    simp at h
  · rw [hscan] at h
    rcases stOpt with _ | st
    · simp only at h
      rcases hb : bootstrapStringtable cfg es with e | st
      · rw [hb] at h
        simp only [Option.some.injEq, Prod.mk.injEq] at h
        obtain ⟨h1, h2⟩ := h
        subst h1
        subst h2
        exact ⟨es, rfl, rfl, rfl, Or.inr ⟨e, rfl, rfl⟩⟩
      · rw [hb] at h
        simp only [Option.some.injEq, Prod.mk.injEq] at h
        obtain ⟨h1, h2⟩ := h
        subst h1
        subst h2
        exact ⟨es, rfl, rfl, rfl, Or.inl ⟨rfl, rfl⟩⟩
    · simp only at h
      simp only [Option.some.injEq, Prod.mk.injEq] at h
      obtain ⟨h1, h2⟩ := h
      subst h1
      subst h2
      exact ⟨es, rfl, rfl, rfl, Or.inl ⟨rfl, rfl⟩⟩

/-- C6 (amended): on every instance, each of the three operations
triggers the lazy load on its first call; the underlying scan executes
exactly once and the parsed state is immutable under any further
operation calls; and repeated calls yield identical results provided
the load completed successfully (i.e. a string table is installed). -/
theorem dynamic_cache_C6 (cfg : DynConfig) (fuel : Nat)
    (stOpt : Option StringTable) (op : DynOp) (s1 : DynState)
    (r1 : Except PyError DynResult)
    (h : runOp cfg fuel op (initState stOpt) = some (s1, r1)) :
    s1.loadCount = 1 ∧
    s1.entries.isSome ∧
    (∀ op2, runOp cfg fuel op2 s1 = some (s1, opResult op2 s1)) ∧
    (s1.stringtable.isSome → runOp cfg fuel op s1 = some (s1, r1)) := by
  rw [runOp_eq] at h
  rcases hr : runLoad cfg fuel (initState stOpt) with _ | ⟨s1x, rx⟩
  · rw [hr] at h
    simp at h
  · rw [hr] at h
    obtain ⟨es, hscan, hentries, hcount, hdisj⟩ :=
      runLoad_init cfg fuel stOpt s1x rx hr
    have hsome : s1x.entries.isSome := by
      rw [hentries]
      rfl
    have hself : ∀ op2, runOp cfg fuel op2 s1x =
        some (s1x, opResult op2 s1x) := by
      intro op2
      rw [runOp_eq, runLoad_loaded cfg fuel s1x hsome]
    rcases rx with e | u
    · simp only [Option.some.injEq, Prod.mk.injEq] at h
      obtain ⟨h1, h2⟩ := h
      subst h1
      rcases hdisj with ⟨hok, _⟩ | ⟨e2, _, hnone⟩
      · exact absurd hok (by simp)
      · refine ⟨hcount, hsome, hself, ?_⟩
        intro hst
        rw [hnone] at hst
        simp at hst
    · cases u
      simp only [Option.some.injEq, Prod.mk.injEq] at h
      obtain ⟨h1, h2⟩ := h
      subst h1
      subst h2
      refine ⟨hcount, hsome, hself, ?_⟩
      intro _
      exact hself op

/-- Concrete two-record stream with no DT_STRTAB entry: the bootstrap
of its lazy load fails. -/
def w2cfg : DynConfig :=
  { decode := fun off =>
      ([⟨"DT_NEEDED", 1, 1⟩, ⟨"DT_NULL", 0, 0⟩].getD off ⟨"DT_HASH", 0, 0⟩)
    offset := 0
    tagsize := 1
    regions := []
    stream := [] }

/-- The state `w2cfg`'s failed first load leaves behind: entries
cached, no string table, one scan performed. -/
def w2failed : DynState :=
  { entries := some [⟨"DT_NEEDED", 1, 1⟩, ⟨"DT_NULL", 0, 0⟩]
    stringtable := none
    loadCount := 1 }

/-- Counterexample to C6 as stated: on an instance whose bootstrap
fails (stream `w2cfg`, no supplied string table), the first and second
calls of `num_tags` yield different results — the first raises
`KeyError`, the second answers 2 from the cached entries. -/
theorem dynamic_cache_C6_counterexample :
    Dynamic.num_tags w2cfg 5 (initState none) =
      some (w2failed, .error .keyError) ∧
    Dynamic.num_tags w2cfg 5 w2failed = some (w2failed, .ok 2) := by
  constructor
  · rfl
  · rfl

/-- The loaded state of the `w1cfg` instance (supplied string table). -/
def w1loaded : DynState :=
  { entries := some [⟨"DT_SONAME", 1, 1⟩, ⟨"DT_NULL", 0, 0⟩]
    stringtable := some w1st
    loadCount := 1 }

theorem dynamic_cache_C6_witness :
    runOp w1cfg 5 .numTags (initState (some w1st)) =
      some (w1loaded, .ok (.nat 2)) ∧
    w1loaded.loadCount = 1 ∧
    runOp w1cfg 5 .numTags w1loaded = some (w1loaded, .ok (.nat 2)) :=
  have h : runOp w1cfg 5 .numTags (initState (some w1st)) =
      some (w1loaded, .ok (.nat 2)) := by rfl
  ⟨h, (dynamic_cache_C6 w1cfg 5 (some w1st) .numTags w1loaded
      (.ok (.nat 2)) h).1,
    (dynamic_cache_C6 w1cfg 5 (some w1st) .numTags w1loaded
      (.ok (.nat 2)) h).2.2.2 (by decide)⟩

/-! ### Claim C5 -/

/-- With a string table present, wrapping a list of entries in views
never raises: it yields exactly the per-entry views. -/
theorem mapM_mkDynamicTag (st : StringTable) (es : List Entry) :
    es.mapM (fun e => mkDynamicTag e (some st)) =
      .ok (es.map (mkTagWith st)) := by
  induction es with
  | nil => rfl
  | cons a l ih =>
    rw [List.mapM_cons, ih]
    rfl

/-- Reading the type map with default `()` yields the in-order sublist
of entries with that tag — the empty list when the tag is absent. -/
theorem entryTypeMap_getD (es : List Entry) (t : String) :
    (entryTypeMap es t).getD [] = es.filter (fun e => e.d_tag = t) := by
  unfold entryTypeMap
  rcases hg : (es.filter (fun e => e.d_tag = t)).isEmpty with _ | _
  · simp [hg]
  · simp [hg, List.isEmpty_iff.mp hg]

/-- C5: on a loaded table, `iter_tags(T)` yields exactly the
subsequence of `iter_tags(None)` whose entries have tag `T`, in the
same relative order, and a tag type absent from the data yields an
empty sequence rather than an error. -/
theorem dynamic_iter_C5 (cfg : DynConfig) (fuel : Nat) (s : DynState)
    (es : List Entry) (st : StringTable) (t : String)
    (he : s.entries = some es) (hst : s.stringtable = some st) :
    Dynamic.iter_tags cfg fuel none s =
      some (s, .ok (es.map (mkTagWith st))) ∧
    Dynamic.iter_tags cfg fuel (some t) s =
      some (s, .ok ((es.map (mkTagWith st)).filter
        (fun d => d.entry.d_tag = t))) ∧
    ((∀ e ∈ es, e.d_tag ≠ t) →
      Dynamic.iter_tags cfg fuel (some t) s = some (s, .ok [])) := by
  have hsome : s.entries.isSome := by
    rw [he]
    rfl
  have hload := runLoad_loaded cfg fuel s hsome
  have hiter : ∀ type, Dynamic.iter_tags cfg fuel type s =
      some (s, iterTagsResult type s) := by
    intro type
    unfold Dynamic.iter_tags
    rw [hload]
  have hfilter : (es.map (mkTagWith st)).filter
      (fun d => d.entry.d_tag = t) =
      (es.filter (fun e => e.d_tag = t)).map (mkTagWith st) := by
    rw [List.filter_map]
    congr 1
    refine List.filter_congr ?_
    intro e _
    simp [Function.comp, mkTagWith_entry]
  refine ⟨?_, ?_, ?_⟩
  · rw [hiter]
    simp only [iterTagsResult, he, hst, Option.getD_some]
    rw [mapM_mkDynamicTag]
  · rw [hiter]
    simp only [iterTagsResult, he, hst, Option.getD_some]
    rw [entryTypeMap_getD, mapM_mkDynamicTag, hfilter]
  · intro habsent
    rw [hiter]
    simp only [iterTagsResult, he, hst, Option.getD_some]
    rw [entryTypeMap_getD]
    have hnil : es.filter (fun e => e.d_tag = t) = [] := by
      rw [List.filter_eq_nil_iff]
      intro e hee
      simp [habsent e hee]
    rw [hnil]
    rfl

theorem dynamic_iter_C5_witness :
    w1loaded.entries = some [⟨"DT_SONAME", 1, 1⟩, ⟨"DT_NULL", 0, 0⟩] ∧
    w1loaded.stringtable = some w1st ∧
    Dynamic.iter_tags w1cfg 5 (some "DT_SONAME") w1loaded =
      some (w1loaded, .ok
        (([⟨"DT_SONAME", 1, 1⟩, ⟨"DT_NULL", 0, 0⟩].map
            (mkTagWith w1st)).filter
          (fun d => d.entry.d_tag = "DT_SONAME"))) :=
  ⟨by rfl, by rfl,
    (dynamic_iter_C5 w1cfg 5 w1loaded
      [⟨"DT_SONAME", 1, 1⟩, ⟨"DT_NULL", 0, 0⟩] w1st "DT_SONAME"
      (by rfl) (by rfl)).2.1⟩

/-! ### Claim C3 -/

/-- When exactly one DT_STRSZ entry is present, the resolved size is
that entry's `d_val`. -/
theorem getStrsz_single (es : List Entry) (sz : Entry)
    (strszOpt : Option Nat)
    (hg : entryTypeMap es "DT_STRSZ" = some [sz])
    (hs : getStrsz es = .ok strszOpt) : strszOpt = some sz.d_val := by
  unfold getStrsz at hs
  rw [hg] at hs
  injection hs with h
  exact h.symm

/-- When no DT_STRSZ entry is present, the size stays unspecified. -/
theorem getStrsz_absent (es : List Entry) (strszOpt : Option Nat)
    (hg : entryTypeMap es "DT_STRSZ" = none)
    (hs : getStrsz es = .ok strszOpt) : strszOpt = none := by
  unfold getStrsz at hs
  rw [hg] at hs
  injection hs with h
  exact h.symm

/-- C3: when no string table is supplied, the lazy load bootstraps one
from the single DT_STRTAB entry — its address translated to a file
offset through the address mapper over the container's loadable
regions — with the size taken from the DT_STRSZ entry when present and
unspecified (greedy) when absent, and the bootstrapped table reports
that mapped offset as its base; when a string table was supplied, no
bootstrap occurs. -/
theorem dynamic_bootstrap_C3 (cfg : DynConfig) (fuel : Nat) :
    (∀ (st0 : StringTable) (s1 : DynState) (r : Except PyError Unit),
      runLoad cfg fuel (initState (some st0)) = some (s1, r) →
      s1.stringtable = some st0 ∧ r = .ok ()) ∧
    (∀ s1 : DynState,
      runLoad cfg fuel (initState none) = some (s1, .ok ()) →
      ∃ (es : List Entry) (strtab : Entry) (strszOpt : Option Nat)
        (pos : Nat),
        s1.entries = some es ∧
        entryTypeMap es "DT_STRTAB" = some [strtab] ∧
        getStrsz es = .ok strszOpt ∧
        (∀ sz, entryTypeMap es "DT_STRSZ" = some [sz] →
          strszOpt = some sz.d_val) ∧
        (entryTypeMap es "DT_STRSZ" = none → strszOpt = none) ∧
        ELFFile.map cfg.regions strtab.d_ptr (strszOpt.getD 0) = .ok pos ∧
        s1.stringtable = some
          { stream := cfg.stream, position := pos, size := strszOpt }) := by
  constructor
  · intro st0 s1 r h
    unfold runLoad initState at h
    rcases hscan : scanEntries cfg fuel 0 [] with _ | es
    · rw [hscan] at h
      simp at h
    · rw [hscan] at h
      simp only [Option.some.injEq, Prod.mk.injEq] at h
      obtain ⟨h1, h2⟩ := h
      subst h1
      subst h2
      exact ⟨rfl, rfl⟩
  · intro s1 h
    unfold runLoad initState at h
    rcases hscan : scanEntries cfg fuel 0 [] with _ | es
    · rw [hscan] at h
      simp at h
    · rw [hscan] at h
      simp only at h
      rcases hb : bootstrapStringtable cfg es with e | st
      · rw [hb] at h
        simp at h
      · rw [hb] at h
        simp only [Option.some.injEq, Prod.mk.injEq] at h
        obtain ⟨h1, _⟩ := h
        subst h1
        rcases hmap : entryTypeMap es "DT_STRTAB" with _ | g
        · simp [bootstrapStringtable, hmap] at hb
        · rcases g with _ | ⟨strtab, rest⟩
          · simp [bootstrapStringtable, hmap] at hb
          · rcases rest with _ | ⟨b, rest2⟩
            · rcases hs : getStrsz es with e2 | strszOpt
              · simp [bootstrapStringtable, hmap, hs] at hb
              · rcases hm : ELFFile.map cfg.regions strtab.d_ptr
                    (strszOpt.getD 0) with e3 | pos
                · simp [bootstrapStringtable, hmap, hs, hm] at hb
                · simp only [bootstrapStringtable, hmap, hs, hm,
                    Except.ok.injEq] at hb
                  subst hb
                  refine ⟨es, strtab, strszOpt, pos, rfl, hmap, hs,
                    ?_, ?_, hm, rfl⟩
                  · intro sz hsz
                    exact getStrsz_single es sz strszOpt hsz hs
                  · intro habs
                    exact getStrsz_absent es strszOpt habs hs
            · simp [bootstrapStringtable, hmap] at hb

/-- Concrete four-record stream whose bootstrap succeeds: one
DT_STRTAB pointer (0x10110), one DT_STRSZ size (4), and a loadable
region mapping the pointer to file offset 0x410. -/
def w3cfg : DynConfig :=
  { decode := fun off =>
      ([⟨"DT_SONAME", 1, 1⟩, ⟨"DT_STRTAB", 0x10110, 0x10110⟩,
        ⟨"DT_STRSZ", 4, 4⟩, ⟨"DT_NULL", 0, 0⟩].getD off ⟨"DT_HASH", 0, 0⟩)
    offset := 0
    tagsize := 1
    regions := [⟨0x10100, 0x100, 0x400⟩]
    stream := [] }

/-- The state `w3cfg`'s load reaches: entries cached and the
bootstrapped string table at the mapped offset 0x410 with size 4. -/
def w3loaded : DynState :=
  { entries := some [⟨"DT_SONAME", 1, 1⟩, ⟨"DT_STRTAB", 0x10110, 0x10110⟩,
      ⟨"DT_STRSZ", 4, 4⟩, ⟨"DT_NULL", 0, 0⟩]
    stringtable := some { stream := [], position := 0x410, size := some 4 }
    loadCount := 1 }

theorem dynamic_bootstrap_C3_witness :
    runLoad w3cfg 10 (initState none) = some (w3loaded, .ok ()) ∧
    ∃ (es : List Entry) (strtab : Entry) (strszOpt : Option Nat)
      (pos : Nat),
      w3loaded.entries = some es ∧
      entryTypeMap es "DT_STRTAB" = some [strtab] ∧
      getStrsz es = .ok strszOpt ∧
      (∀ sz, entryTypeMap es "DT_STRSZ" = some [sz] →
        strszOpt = some sz.d_val) ∧
      (entryTypeMap es "DT_STRSZ" = none → strszOpt = none) ∧
      ELFFile.map w3cfg.regions strtab.d_ptr (strszOpt.getD 0) = .ok pos ∧
      w3loaded.stringtable = some
        { stream := w3cfg.stream, position := pos, size := strszOpt } :=
  have h : runLoad w3cfg 10 (initState none) = some (w3loaded, .ok ()) := by
    rfl
  ⟨h, (dynamic_bootstrap_C3 w3cfg 10).2 w3loaded h⟩

/-! ### Claim C9 -/

/-- C9: when the scanned entries contain more than one DT_STRTAB
entry and no string table was supplied, the bootstrap — and with it
the whole load — fails with the unpacking/arity error (`ValueError`)
rather than picking one of them. -/
theorem dynamic_multi_strtab_C9 (cfg : DynConfig) (fuel c : Nat)
    (es : List Entry)
    (hscan : scanEntries cfg fuel 0 [] = some es)
    (hmulti : 2 ≤ (es.filter (fun e => e.d_tag = "DT_STRTAB")).length) :
    bootstrapStringtable cfg es = .error .valueError ∧
    runLoad cfg fuel
        { entries := none, stringtable := none, loadCount := c } =
      some ({ entries := some es, stringtable := none, loadCount := c + 1 },
        .error .valueError) := by
  have hb : bootstrapStringtable cfg es = .error .valueError := by
    rcases hg : es.filter (fun e => e.d_tag = "DT_STRTAB") with _ | ⟨a, rest⟩
    · rw [hg] at hmulti
      simp at hmulti
    · rcases rest with _ | ⟨b, rest2⟩
      · rw [hg] at hmulti
        simp at hmulti
      · have hmap : entryTypeMap es "DT_STRTAB" = some (a :: b :: rest2) := by
          unfold entryTypeMap
          rw [hg]
          rfl
        simp [bootstrapStringtable, hmap]
  refine ⟨hb, ?_⟩
  rw [runLoad_bootstrap cfg fuel c es hscan, hb]

/-- Concrete stream with two DT_STRTAB entries before the sentinel. -/
def w9cfg : DynConfig :=
  { decode := fun off =>
      ([⟨"DT_STRTAB", 1, 1⟩, ⟨"DT_STRTAB", 2, 2⟩,
        ⟨"DT_NULL", 0, 0⟩].getD off ⟨"DT_HASH", 0, 0⟩)
    offset := 0
    tagsize := 1
    regions := []
    stream := [] }

theorem dynamic_multi_strtab_C9_witness :
    scanEntries w9cfg 5 0 [] =
      some [⟨"DT_STRTAB", 1, 1⟩, ⟨"DT_STRTAB", 2, 2⟩, ⟨"DT_NULL", 0, 0⟩] ∧
    2 ≤ (([⟨"DT_STRTAB", 1, 1⟩, ⟨"DT_STRTAB", 2, 2⟩,
        (⟨"DT_NULL", 0, 0⟩ : Entry)]).filter
      (fun e => e.d_tag = "DT_STRTAB")).length ∧
    runLoad w9cfg 5 { entries := none, stringtable := none, loadCount := 0 } =
      some ({ entries := some [⟨"DT_STRTAB", 1, 1⟩, ⟨"DT_STRTAB", 2, 2⟩,
                ⟨"DT_NULL", 0, 0⟩],
              stringtable := none, loadCount := 1 }, .error .valueError) :=
  ⟨by rfl, by decide,
    (dynamic_multi_strtab_C9 w9cfg 5 0
      [⟨"DT_STRTAB", 1, 1⟩, ⟨"DT_STRTAB", 2, 2⟩, ⟨"DT_NULL", 0, 0⟩]
      (by rfl) (by decide)).2⟩

/-! ### Claim C10 -/

/-- If no entry carries a given tag, the finished type map has no key
for it (its default factory is disabled after the scan). -/
theorem entryTypeMap_absent (es : List Entry) (t : String)
    (habsent : ∀ e ∈ es, e.d_tag ≠ t) : entryTypeMap es t = none := by
  unfold entryTypeMap
  have hnil : es.filter (fun e => e.d_tag = t) = [] := by
    rw [List.filter_eq_nil_iff]
    intro e hee
    simp [habsent e hee]
  rw [hnil]
  rfl

/-- C10 (amended): when no string table is supplied and the scanned
entries contain no DT_STRTAB entry, the load raises `KeyError` — the
tag-group map's default factory is disabled, so the absent group is
not silently created empty — and therefore whichever of the three
operations triggers the load fails; the scanned entries stay cached,
however, so a subsequent `num_tags` call succeeds even though the
instance still has no string table. -/
theorem dynamic_nostrtab_C10 (cfg : DynConfig) (fuel c : Nat)
    (es : List Entry) (op : DynOp)
    (hscan : scanEntries cfg fuel 0 [] = some es)
    (habsent : ∀ e ∈ es, e.d_tag ≠ "DT_STRTAB") :
    bootstrapStringtable cfg es = .error .keyError ∧
    runOp cfg fuel op
        { entries := none, stringtable := none, loadCount := c } =
      some ({ entries := some es, stringtable := none, loadCount := c + 1 },
        .error .keyError) ∧
    Dynamic.num_tags cfg fuel
        { entries := some es, stringtable := none, loadCount := c + 1 } =
      some ({ entries := some es, stringtable := none, loadCount := c + 1 },
        .ok es.length) := by
  have hmap := entryTypeMap_absent es "DT_STRTAB" habsent
  have hb : bootstrapStringtable cfg es = .error .keyError := by
    simp [bootstrapStringtable, hmap]
  refine ⟨hb, ?_, ?_⟩
  · rw [runOp_eq, runLoad_bootstrap cfg fuel c es hscan, hb]
  · unfold Dynamic.num_tags
    rw [runLoad_loaded cfg fuel _ (by simp)]
    simp [numTagsResult]

/-- Counterexample to C10's final clause as stated ("every table
operation fails"): on the `w2cfg` instance — no DT_STRTAB entry — the
first `num_tags` call does raise `KeyError`, but a second `num_tags`
call on the very same instance succeeds, answering 2 from the cached
entries although no string table exists. -/
theorem dynamic_nostrtab_C10_counterexample :
    (∀ e ∈ [⟨"DT_NEEDED", 1, 1⟩, (⟨"DT_NULL", 0, 0⟩ : Entry)],
      e.d_tag ≠ "DT_STRTAB") ∧
    Dynamic.num_tags w2cfg 5 (initState none) =
      some (w2failed, .error .keyError) ∧
    w2failed.stringtable = none ∧
    Dynamic.num_tags w2cfg 5 w2failed = some (w2failed, .ok 2) :=
  ⟨by decide, by rfl, by rfl, by rfl⟩

theorem dynamic_nostrtab_C10_witness :
    scanEntries w2cfg 5 0 [] =
      some [⟨"DT_NEEDED", 1, 1⟩, ⟨"DT_NULL", 0, 0⟩] ∧
    (∀ e ∈ [⟨"DT_NEEDED", 1, 1⟩, (⟨"DT_NULL", 0, 0⟩ : Entry)],
      e.d_tag ≠ "DT_STRTAB") ∧
    runOp w2cfg 5 .numTags
        { entries := none, stringtable := none, loadCount := 0 } =
      some ({ entries := some [⟨"DT_NEEDED", 1, 1⟩, ⟨"DT_NULL", 0, 0⟩],
              stringtable := none, loadCount := 1 }, .error .keyError) :=
  ⟨by rfl, by decide,
    (dynamic_nostrtab_C10 w2cfg 5 0
      [⟨"DT_NEEDED", 1, 1⟩, ⟨"DT_NULL", 0, 0⟩] .numTags
      (by rfl) (by decide)).2.1⟩

/-! ### Claims C2 and C4 -/

/-- List lemma: `find?` returns the element at the first index satisfying the
predicate. -/
theorem find?_of_first {α : Type} (p : α → Bool) (l : List α) (i : Nat)
    (hi : i < l.length) (hp : p (l.get ⟨i, hi⟩) = true)
    (hfirst : ∀ j (hj : j < i), p (l.get ⟨j, Nat.lt_trans hj hi⟩) = false) :
    l.find? p = some (l.get ⟨i, hi⟩) := by
  induction l generalizing i with
  | nil => simp at hi
  | cons a t ih =>
    cases i with
    | zero =>
      exact List.find?_cons_of_pos t hp
    | succ k =>
      have h0 : p a = false := hfirst 0 (Nat.succ_pos k)
      rw [List.find?_cons_of_neg t (by simp [h0])]
      exact ih k (Nat.lt_of_succ_lt_succ hi) hp
        (fun j hj => hfirst (j + 1) (Nat.succ_lt_succ hj))

/-- C2 (amended): `map` returns `offset + (address - vaddr)` of the
first region (in supplied order) that contains the query — where a
query of length `L` fits a region when `vaddr <= address` and
`address + max L 1 <= vaddr + filesz`, so a zero-length query must
land strictly before the region's end — and raises a `LookupError`
when no region satisfies that predicate. -/
theorem elffile_map_C2 (regions : List Region) (address length : Nat) :
    ((∀ r ∈ regions, regionMatch r address length = false) →
      ELFFile.map regions address length = .error .lookupError) ∧
    (∀ i (hi : i < regions.length),
      regionMatch (regions.get ⟨i, hi⟩) address length = true →
      (∀ j (hj : j < i),
        regionMatch (regions.get ⟨j, Nat.lt_trans hj hi⟩) address length =
          false) →
      ELFFile.map regions address length =
        .ok ((regions.get ⟨i, hi⟩).p_offset +
          (address - (regions.get ⟨i, hi⟩).p_vaddr))) := by
  constructor
  · intro hnone
    unfold ELFFile.map
    rw [List.find?_eq_none.mpr (fun r hr => by simp [hnone r hr])]
  · intro i hi hp hfirst
    unfold ELFFile.map
    rw [find?_of_first (fun r => regionMatch r address length)
      regions i hi hp hfirst]

/-- The region of the C2 counterexample: `(0x10200, 0x200, 0x100)`,
whose end lies at address 0x10400. -/
def c2Region : Region := ⟨0x10200, 0x200, 0x100⟩

/-- Counterexample to C2 as stated: the zero-length query at address
0x10400 satisfies the claim's predicate
`vaddr <= address ∧ address + length <= vaddr + filesz` on `c2Region`,
yet `map` raises `LookupError` instead of returning
`offset + (address - vaddr)` — the code requires zero-length queries
to land strictly before the region's end (see `test_elffile.py`,
where `map(0x10400)` must raise). -/
theorem elffile_map_C2_counterexample :
    (c2Region.p_vaddr ≤ 0x10400 ∧
      0x10400 + 0 ≤ c2Region.p_vaddr + c2Region.p_filesz) ∧
    ELFFile.map [c2Region] 0x10400 0 = .error .lookupError := by
  decide

theorem elffile_map_C2_witness :
    (∀ r ∈ [c2Region], regionMatch r 0x10400 0 = false) ∧
    ELFFile.map [c2Region] 0x10400 0 = .error .lookupError ∧
    regionMatch ([c2Region].get ⟨0, by decide⟩) 0x10200 4 = true ∧
    ELFFile.map [c2Region] 0x10200 4 =
      .ok (([c2Region].get ⟨0, by decide⟩).p_offset +
        (0x10200 - ([c2Region].get ⟨0, by decide⟩).p_vaddr)) :=
  ⟨by decide,
    (elffile_map_C2 [c2Region] 0x10400 0).1 (by decide),
    by decide,
    (elffile_map_C2 [c2Region] 0x10200 4).2 0 (by decide) (by decide)
      (fun j hj => by omega)⟩

/-- C4: `map` is asymmetric at a region's upper boundary.  A
zero-length query at `address = vaddr + filesz` never matches that
region — it fails unless some other region covers the address — while
a nonzero-length query ending exactly at `vaddr + filesz` succeeds. -/
theorem elffile_map_C4 (regions : List Region) (r : Region)
    (address length : Nat) :
    (address = r.p_vaddr + r.p_filesz →
      regionMatch r address 0 = false ∧
      ((∀ q ∈ regions, regionMatch q address 0 = false) →
        ELFFile.map regions address 0 = .error .lookupError) ∧
      ((∃ q ∈ regions, regionMatch q address 0 = true) →
        ∃ off, ELFFile.map regions address 0 = .ok off)) ∧
    (r ∈ regions → 1 ≤ length → r.p_vaddr ≤ address →
      address + length = r.p_vaddr + r.p_filesz →
      ∃ off, ELFFile.map regions address length = .ok off) := by
  have hsome : ∀ L, (∃ q ∈ regions, regionMatch q address L = true) →
      ∃ off, ELFFile.map regions address L = .ok off := by
    intro L hex
    have h := List.find?_isSome.mpr hex
    rcases hf : regions.find? (fun q => regionMatch q address L) with _ | q
    · rw [hf] at h
      simp at h
    · exact ⟨q.p_offset + (address - q.p_vaddr), by
        unfold ELFFile.map
        rw [hf]⟩
  constructor
  · intro hend
    refine ⟨?_, ?_, hsome 0⟩
    · unfold regionMatch
      subst hend
      simp
    · intro hnone
      unfold ELFFile.map
      rw [List.find?_eq_none.mpr (fun q hq => by simp [hnone q hq])]
  · intro hmem hlen hlo hend
    refine hsome length ⟨r, hmem, ?_⟩
    unfold regionMatch
    simp
    omega

/-- The region list of the C4 concrete check: `testMapRegions`, where
0x10400 is the end of the first region and no region covers it, while
the nonzero query `(0x10200, length 0x200)` ends exactly there. -/
theorem elffile_map_C4_witness :
    (0x10400 = (⟨0x10200, 0x200, 0x100⟩ : Region).p_vaddr +
      (⟨0x10200, 0x200, 0x100⟩ : Region).p_filesz) ∧
    regionMatch ⟨0x10200, 0x200, 0x100⟩ 0x10400 0 = false ∧
    ELFFile.map testMapRegions 0x10400 0 = .error .lookupError ∧
    (∃ off, ELFFile.map testMapRegions 0x10200 0x200 = .ok off) :=
  have h4a := elffile_map_C4 testMapRegions ⟨0x10200, 0x200, 0x100⟩
    0x10400 0
  have h4b := elffile_map_C4 testMapRegions ⟨0x10200, 0x200, 0x100⟩
    0x10200 0x200
  ⟨by decide,
    ((h4a.1 (by decide)).1),
    ((h4a.1 (by decide)).2.1 (by decide)),
    (h4b.2 (by decide) (by decide) (by decide) (by decide))⟩

/-! ### Claims C7 and C8 -/

/-- C7: for every entry whose tag is in the fixed string-bearing set,
constructing the view performs the string-table lookup at the entry's
value-as-offset and exposes the decoded bytes under the attribute
named by the tag with the `DT_` prefix stripped and lower-cased (e.g.
`needed`, `soname`); empty string-table content decodes to the empty
byte string rather than an error; for any other tag no eager
resolution occurs. -/
theorem dynamictag_handled_C7 (e : Entry) (st : StringTable) :
    (e.d_tag ∈ HANDLED_TAGS →
      mkDynamicTag e (some st) =
        .ok { entry := e
              attrName := some (lowerStr (e.d_tag.drop 3))
              attrVal := some (st.get_string e.d_val) }) ∧
    (e.d_tag ∉ HANDLED_TAGS →
      mkDynamicTag e (some st) =
        .ok { entry := e, attrName := none, attrVal := none }) ∧
    (st.size = some 0 → st.get_string e.d_val = []) ∧
    lowerStr ("DT_NEEDED".drop 3) = "needed" ∧
    lowerStr ("DT_SONAME".drop 3) = "soname" := by
  refine ⟨?_, ?_, ?_, by decide, by decide⟩
  · intro hmem
    simp [mkDynamicTag, mkTagWith, hmem]
  · intro hmem
    simp [mkDynamicTag, mkTagWith, hmem]
  · intro hsz
    simp [StringTable.get_string, hsz]

theorem dynamictag_handled_C7_witness :
    ((⟨"DT_NEEDED", 1, 1⟩ : Entry).d_tag ∈ HANDLED_TAGS) ∧
    mkDynamicTag ⟨"DT_NEEDED", 1, 1⟩ (some w1st) =
      .ok { entry := ⟨"DT_NEEDED", 1, 1⟩
            attrName := some (lowerStr (("DT_NEEDED" : String).drop 3))
            attrVal := some (w1st.get_string 1) } ∧
    ((⟨"DT_DEBUG", 0, 0⟩ : Entry).d_tag ∉ HANDLED_TAGS) ∧
    mkDynamicTag ⟨"DT_DEBUG", 0, 0⟩ (some w1st) =
      .ok { entry := ⟨"DT_DEBUG", 0, 0⟩, attrName := none,
            attrVal := none } :=
  ⟨by decide,
    (dynamictag_handled_C7 ⟨"DT_NEEDED", 1, 1⟩ w1st).1 (by decide),
    by decide,
    (dynamictag_handled_C7 ⟨"DT_DEBUG", 0, 0⟩ w1st).2.1 (by decide)⟩

/-- C8: constructing a `DynamicTag` without a string table raises an
`ELFError` at construction time, whatever the entry's tag — including
tags that need no string lookup. -/
theorem dynamictag_nostringtable_C8 (e : Entry) :
    mkDynamicTag e none = .error .elfError := rfl
